import Mathlib

/-!
Verification of the simple-draw diagram editor against its specification.

The development shallowly embeds the JavaScript source:

* `src/js/utils/sanitizer.js` — `sanitizeInput`, `sanitizeMermaidInput`,
  `validateAndSanitizeInput`;
* `src/js/renderer.js` — `Renderer.sanitizeInput`, `Renderer.zoom`,
  `Renderer.resetZoom`, `Renderer.renderDiagram` (surface id and view
  transform effects);
* `ExportManager._sanitizeSvgContent` — DOM-tree scrubbing modelled on a
  node tree (the browser's `DOMParser` / `XMLSerializer` are the external
  boundary of the embedding);
* `ThemeManager.switchTheme` — explicit state passing for the current
  theme, the persisted storage slot and re-render submissions;
* `LoadExamples` — the retrying fetch (`_fetchExamplesFile`), the
  catalogue parser (`_parseExamples`, mimicking the lazy regular
  expression) and the popup HTML generators (class-based and legacy).

Strings are embedded as Lean `String`/`List Char`; machine floats of the
zoom logic are embedded as exact rationals (the clamp arithmetic involved
is exact in any ordered field); asynchronous fetch attempts are embedded
as an explicit oracle `Nat → FetchOutcome` giving each attempt's outcome.
-/

namespace SimpleDraw

/-! ## Sanitizer (src/js/utils/sanitizer.js) -/

/-- Entity expansion of a single character for `sanitizeInput`
(the `htmlEntityMap` of sanitizer.js: `< > & " ' /`). -/
def escInputChar (c : Char) : List Char :=
  if c = '<' then ['&', 'l', 't', ';']
  else if c = '>' then ['&', 'g', 't', ';']
  else if c = '&' then ['&', 'a', 'm', 'p', ';']
  else if c = '"' then ['&', 'q', 'u', 'o', 't', ';']
  else if c = '\'' then ['&', '#', 'x', '2', '7', ';']
  else if c = '/' then ['&', '#', 'x', '2', 'F', ';']
  else [c]

/-- Character-list version of `sanitizeInput`: the regex
`/[<>&"'/]/g` replaces each matched character by its entity. -/
def sanitizeInputL : List Char → List Char
  | [] => []
  | c :: r => escInputChar c ++ sanitizeInputL r

/-- `sanitizeInput` of sanitizer.js (the spec's `escapeForDisplay`). -/
def sanitizeInput (s : String) : String :=
  ⟨sanitizeInputL s.data⟩

/-- Entity expansion of a single character for `sanitizeMermaidInput`.
The regex `/[<>&"]/g` also matches `>`, but the `mermaidSafeEntityMap`
has no entry for it, so the callback's `|| char` returns it unchanged. -/
def escMermaidChar (c : Char) : List Char :=
  if c = '<' then ['&', 'l', 't', ';']
  else if c = '&' then ['&', 'a', 'm', 'p', ';']
  else if c = '"' then ['&', 'q', 'u', 'o', 't', ';']
  else [c]

/-- Character-list version of `sanitizeMermaidInput`. -/
def sanitizeMermaidL : List Char → List Char
  | [] => []
  | c :: r => escMermaidChar c ++ sanitizeMermaidL r

/-- `sanitizeMermaidInput` of sanitizer.js (the spec's
`escapeForDiagramSource`). -/
def sanitizeMermaidInput (s : String) : String :=
  ⟨sanitizeMermaidL s.data⟩

/-- One character of `Renderer.sanitizeInput` (renderer.js): the same
replacement written as a `switch` with a `default: return char` branch;
a `switch` on a character is an equality chain. -/
def rendererSanitizeChar (c : Char) : List Char :=
  if c = '<' then ['&', 'l', 't', ';']
  else if c = '&' then ['&', 'a', 'm', 'p', ';']
  else if c = '"' then ['&', 'q', 'u', 'o', 't', ';']
  else [c]

/-- Character-list version of `Renderer.sanitizeInput`
(regex `/[<>&"]/g`, `>` falls through to `default`). -/
def rendererSanitizeL : List Char → List Char
  | [] => []
  | c :: r => rendererSanitizeChar c ++ rendererSanitizeL r

/-- `Renderer.sanitizeInput` of renderer.js. -/
def rendererSanitizeInput (s : String) : String :=
  ⟨rendererSanitizeL s.data⟩

/-- Every ampersand in the list begins one of the escape entities
`&lt;` `&amp;` `&quot;`; a bare (unescaped) ampersand fails. -/
def ampEscaped : List Char → Bool
  | [] => true
  | c :: r =>
    if c = '&' then
      match r with
      | 'l' :: 't' :: ';' :: r2 => ampEscaped r2
      | 'a' :: 'm' :: 'p' :: ';' :: r2 => ampEscaped r2
      | 'q' :: 'u' :: 'o' :: 't' :: ';' :: r2 => ampEscaped r2
      | _ => false
    else ampEscaped r

lemma ampEscaped_cons_ne (c : Char) (r : List Char) (h : c ≠ '&') :
    ampEscaped (c :: r) = ampEscaped r := by
  rw [ampEscaped.eq_def]; simp [h]

lemma ampEscaped_lt (r : List Char) :
    ampEscaped ('&' :: 'l' :: 't' :: ';' :: r) = ampEscaped r := rfl

lemma ampEscaped_amp (r : List Char) :
    ampEscaped ('&' :: 'a' :: 'm' :: 'p' :: ';' :: r) = ampEscaped r := rfl

lemma ampEscaped_quot (r : List Char) :
    ampEscaped ('&' :: 'q' :: 'u' :: 'o' :: 't' :: ';' :: r) = ampEscaped r := rfl

lemma escMermaidChar_lt : escMermaidChar '<' = ['&', 'l', 't', ';'] := rfl

lemma escMermaidChar_amp : escMermaidChar '&' = ['&', 'a', 'm', 'p', ';'] := rfl

lemma escMermaidChar_quot : escMermaidChar '"' = ['&', 'q', 'u', 'o', 't', ';'] := rfl

lemma escMermaidChar_eq (c : Char) (h1 : c ≠ '<') (h2 : c ≠ '&') (h3 : c ≠ '"') :
    escMermaidChar c = [c] := by
  simp [escMermaidChar, h1, h2, h3]

lemma mem_escMermaidChar_ne (c d : Char) (hd : d ∈ escMermaidChar c) :
    d ≠ '<' ∧ d ≠ '"' := by
  by_cases h1 : c = '<'
  · subst h1; rw [escMermaidChar_lt] at hd
    fin_cases hd <;> refine ⟨by decide, by decide⟩
  by_cases h2 : c = '&'
  · subst h2; rw [escMermaidChar_amp] at hd
    fin_cases hd <;> refine ⟨by decide, by decide⟩
  by_cases h3 : c = '"'
  · subst h3; rw [escMermaidChar_quot] at hd
    fin_cases hd <;> refine ⟨by decide, by decide⟩
  · rw [escMermaidChar_eq c h1 h2 h3] at hd
    simp at hd; subst hd; exact ⟨h1, h3⟩

lemma sanitizeMermaidL_no_lt_quot (l : List Char) :
    ∀ d ∈ sanitizeMermaidL l, d ≠ '<' ∧ d ≠ '"' := by
  induction l with
  | nil => intro d hd; simp [sanitizeMermaidL] at hd
  | cons c r ih =>
    intro d hd
    simp only [sanitizeMermaidL, List.mem_append] at hd
    rcases hd with hd | hd
    · exact mem_escMermaidChar_ne c d hd
    · exact ih d hd

lemma ampEscaped_sanitizeMermaidL (l : List Char) :
    ampEscaped (sanitizeMermaidL l) = true := by
  induction l with
  | nil => rfl
  | cons c r ih =>
    show ampEscaped (escMermaidChar c ++ sanitizeMermaidL r) = true
    by_cases h1 : c = '<'
    · subst h1
      simpa only [escMermaidChar_lt, List.cons_append, List.nil_append,
        ampEscaped_lt] using ih
    by_cases h2 : c = '&'
    · subst h2
      simpa only [escMermaidChar_amp, List.cons_append, List.nil_append,
        ampEscaped_amp] using ih
    by_cases h3 : c = '"'
    · subst h3
      simpa only [escMermaidChar_quot, List.cons_append, List.nil_append,
        ampEscaped_quot] using ih
    · rw [escMermaidChar_eq c h1 h2 h3]
      simpa only [List.cons_append, List.nil_append, ampEscaped_cons_ne c _ h2] using ih

/-- The characters `>` and `/` pass through the escaper untouched (and no
entity output introduces them): filtering the output down to these two
characters gives exactly the input's occurrences. -/
def isGtOrSlash (c : Char) : Bool :=
  c == '>' || c == '/'

lemma filter_escMermaidChar (c : Char) :
    (escMermaidChar c).filter isGtOrSlash = [c].filter isGtOrSlash := by
  by_cases h1 : c = '<'
  · subst h1; decide
  by_cases h2 : c = '&'
  · subst h2; decide
  by_cases h3 : c = '"'
  · subst h3; decide
  · rw [escMermaidChar_eq c h1 h2 h3]

lemma filter_sanitizeMermaidL (l : List Char) :
    (sanitizeMermaidL l).filter isGtOrSlash = l.filter isGtOrSlash := by
  induction l with
  | nil => rfl
  | cons c r ih =>
    show (escMermaidChar c ++ sanitizeMermaidL r).filter isGtOrSlash = _
    rw [List.filter_append, filter_escMermaidChar, ih, ← List.filter_append,
      List.singleton_append]

lemma rendererSanitizeL_eq (l : List Char) :
    rendererSanitizeL l = sanitizeMermaidL l := by
  induction l with
  | nil => rfl
  | cons c r ih =>
    show rendererSanitizeChar c ++ rendererSanitizeL r = escMermaidChar c ++ sanitizeMermaidL r
    rw [ih]; rfl

lemma rendererSanitizeInput_eq (s : String) :
    rendererSanitizeInput s = sanitizeMermaidInput s := by
  unfold rendererSanitizeInput sanitizeMermaidInput
  rw [rendererSanitizeL_eq]

/-- C2: for every text input, `escapeForDiagramSource` (sanitizer.js
`sanitizeMermaidInput`, identical to renderer.js `Renderer.sanitizeInput`)
leaves no literal `<`, no literal `"`, and no unescaped `&` in its output
(every output ampersand begins one of the entities `&lt;` `&amp;` `&quot;`
it emits), and it never modifies any occurrence of `>` or `/`: filtering
the output to those two characters returns exactly the input's
occurrences. -/
theorem escapeForDiagramSource_output_safe (s : String) :
    (∀ d ∈ (sanitizeMermaidInput s).data, d ≠ '<' ∧ d ≠ '"') ∧
    ampEscaped (sanitizeMermaidInput s).data = true ∧
    (sanitizeMermaidInput s).data.filter isGtOrSlash = s.data.filter isGtOrSlash ∧
    rendererSanitizeInput s = sanitizeMermaidInput s :=
  ⟨sanitizeMermaidL_no_lt_quot s.data, ampEscaped_sanitizeMermaidL s.data,
    filter_sanitizeMermaidL s.data, rendererSanitizeInput_eq s⟩

/-- Witness for the claim about `escapeForDiagramSource`, at the concrete
input `A["x & y"] --> B/</b>`: the escaper's output is computed, the
inner membership hypothesis is discharged at the output character `&`. -/
theorem escapeForDiagramSource_output_safe_witness :
    sanitizeMermaidInput "A[\"x & y\"] --> B/</b>"
        = "A[&quot;x &amp; y&quot;] --> B/&lt;/b>" ∧
    ('&' ≠ '<' ∧ '&' ≠ '"') ∧
    ampEscaped (sanitizeMermaidInput "A[\"x & y\"] --> B/</b>").data = true ∧
    (sanitizeMermaidInput "A[\"x & y\"] --> B/</b>").data.filter isGtOrSlash
        = "A[\"x & y\"] --> B/</b>".data.filter isGtOrSlash := by
  obtain ⟨h1, h2, h3, _⟩ := escapeForDiagramSource_output_safe "A[\"x & y\"] --> B/</b>"
  refine ⟨by decide, h1 '&' (by decide), h2, h3⟩

/-! ## JS whitespace trimming -/

/-- The ASCII part of the JS `\s` class used by `String.prototype.trim`
and the `WHITESPACE_CLEANER` regex `/^\s+|\s+$/g`. -/
def jsWs (c : Char) : Bool :=
  c == ' ' || c == '\t' || c == '\n' || c == '\r' || c == '\u000B' || c == '\u000C'

/-- JS trim on a character list: drop leading and trailing whitespace. -/
def trimL (l : List Char) : List Char :=
  ((l.dropWhile jsWs).reverse.dropWhile jsWs).reverse

/-- JS `String.prototype.trim`. -/
def jsTrim (s : String) : String :=
  ⟨trimL s.data⟩

/-! ## validateAndSanitizeInput (src/js/utils/sanitizer.js) -/

/-- Options record of `validateAndSanitizeInput`; regular-expression
blacklist patterns are embedded as boolean tests on the input. -/
structure ValidateOptions where
  maxLength : Nat
  allowEmpty : Bool
  blacklistPatterns : List (String → Bool)

/-- The defaults destructured from `options`:
`maxLength = 10000`, `allowEmpty = true`, `blacklistPatterns = []`. -/
def defaultValidateOptions : ValidateOptions :=
  ⟨10000, true, []⟩

/-- `validateAndSanitizeInput` of sanitizer.js for string inputs: rejects
empty input when `allowEmpty` is off, then over-long input, then
blacklisted input, and otherwise returns `sanitizeInput` of the input.
Thrown `Error`s are embedded as `Except.error`. -/
def validateAndSanitizeInput (input : String) (opts : ValidateOptions) :
    Except String String :=
  if opts.allowEmpty = false ∧ jsTrim input = "" then
    Except.error "Empty input is not allowed"
  else if opts.maxLength < input.length then
    Except.error ("Input length " ++ toString input.length ++
      " exceeds maximum allowed length " ++ toString opts.maxLength)
  else if opts.blacklistPatterns.any (fun p => p input) then
    Except.error "Input contains prohibited pattern"
  else
    Except.ok (sanitizeInput input)

/-- C10: with default options, `validateAndSanitizeInput` throws for every
string longer than 10000 characters, and for every string within the
limit returns exactly `sanitizeInput` applied to it. -/
theorem validateAndSanitizeInput_default (s : String) :
    (10000 < s.length →
      validateAndSanitizeInput s defaultValidateOptions
        = Except.error ("Input length " ++ toString s.length ++
            " exceeds maximum allowed length " ++ toString (10000 : Nat))) ∧
    (s.length ≤ 10000 →
      validateAndSanitizeInput s defaultValidateOptions
        = Except.ok (sanitizeInput s)) := by
  constructor
  · intro h
    simp [validateAndSanitizeInput, defaultValidateOptions, h]
  · intro h
    simp [validateAndSanitizeInput, defaultValidateOptions, Nat.not_lt.mpr h]

/-- Witness: a 10001-character input is rejected with the length error;
the 3-character input `a<b` passes and is escaped to `a&lt;b`. -/
theorem validateAndSanitizeInput_default_witness :
    validateAndSanitizeInput ⟨List.replicate 10001 'a'⟩ defaultValidateOptions
      = Except.error ("Input length " ++
          toString (String.mk (List.replicate 10001 'a')).length ++
          " exceeds maximum allowed length " ++ toString (10000 : Nat)) ∧
    validateAndSanitizeInput "a<b" defaultValidateOptions
      = Except.ok "a&lt;b" := by
  constructor
  · exact (validateAndSanitizeInput_default _).1
      (by show (10000 : Nat) < (List.replicate 10001 'a').length
          rw [List.length_replicate]; omega)
  · rw [(validateAndSanitizeInput_default "a<b").2 (by decide)]
    exact congrArg Except.ok (by decide)

/-! ## Substring utilities (JS `startsWith` / `includes` / `toLowerCase`) -/

/-- `pat` is a prefix of `l` (JS `String.prototype.startsWith`). -/
def startsWithL : List Char → List Char → Bool
  | [], _ => true
  | _ :: _, [] => false
  | p :: ps, c :: cs => p == c && startsWithL ps cs

/-- `pat` occurs as a contiguous substring of the list
(JS `String.prototype.includes`). -/
def containsSub (pat : List Char) : List Char → Bool
  | [] => startsWithL pat []
  | c :: r => startsWithL pat (c :: r) || containsSub pat r

/-- JS `String.prototype.toLowerCase`, character-wise on the code under
test (the searched token `javascript:` is ASCII). -/
def lowerL (l : List Char) : List Char :=
  l.map Char.toLower

/-! ## ExportManager._sanitizeSvgContent (unnamed/part_003)

The function parses the markup with the browser's `DOMParser`, scrubs the
resulting tree, and re-serializes with `XMLSerializer`. The parser and
serializer are browser built-ins — the external boundary of the
embedding — so the scrub is modelled on the parsed node tree; the
claims are stated over that tree. -/

/-- A parsed markup node: text, or an element with its tag, its
attribute list (name-value pairs) and its children. -/
inductive XmlNode where
  | text : String → XmlNode
  | elem : String → List (String × String) → List XmlNode → XmlNode

/-- The `forbiddenElements` array of `_sanitizeSvgContent`. -/
def forbiddenElements : List String :=
  ["script", "object", "embed", "iframe", "form", "input"]

/-- The attribute test of `_sanitizeSvgContent`:
`attr.name.startsWith('on') || attr.value.toLowerCase().includes('javascript:')`
(name test case-sensitive, value test case-insensitive). -/
def attrDangerous (name value : String) : Bool :=
  startsWithL ['o', 'n'] name.data ||
    containsSub "javascript:".data (lowerL value.data)

mutual
/-- First scrub pass: drop every element whose tag is forbidden, with its
whole subtree (`querySelectorAll(tagName)` + `element.remove()`). -/
def removeForbiddenNode : XmlNode → Option XmlNode
  | .text s => some (.text s)
  | .elem tag attrs children =>
    if tag ∈ forbiddenElements then none
    else some (.elem tag attrs (removeForbiddenNodes children))
/-- `removeForbiddenNode` over a child list. -/
def removeForbiddenNodes : List XmlNode → List XmlNode
  | [] => []
  | n :: r =>
    match removeForbiddenNode n with
    | none => removeForbiddenNodes r
    | some m => m :: removeForbiddenNodes r
end

mutual
/-- Second scrub pass: on every element (`querySelectorAll('*')`), remove
each attribute whose name starts with `on` or whose value contains
`javascript:` case-insensitively. -/
def stripAttrsNode : XmlNode → XmlNode
  | .text s => .text s
  | .elem tag attrs children =>
    .elem tag (attrs.filter (fun a => !attrDangerous a.1 a.2))
      (stripAttrsNodes children)
/-- `stripAttrsNode` over a child list. -/
def stripAttrsNodes : List XmlNode → List XmlNode
  | [] => []
  | n :: r => stripAttrsNode n :: stripAttrsNodes r
end

/-- `_sanitizeSvgContent` on the parsed tree: element removal, then
attribute stripping (`none` when the document root itself was a
forbidden element). The trailing 10 MiB size check of the serialized
output does not alter the tree and is outside this model. -/
def sanitizeSvgTree (t : XmlNode) : Option XmlNode :=
  (removeForbiddenNode t).map stripAttrsNode

mutual
/-- No element of the tree has a forbidden tag. -/
def noForbiddenNode : XmlNode → Bool
  | .text _ => true
  | .elem tag _ children =>
    if tag ∈ forbiddenElements then false else noForbiddenNodes children
/-- `noForbiddenNode` over a child list. -/
def noForbiddenNodes : List XmlNode → Bool
  | [] => true
  | n :: r => noForbiddenNode n && noForbiddenNodes r
end

mutual
/-- No element of the tree carries a dangerous attribute. -/
def noBadAttrNode : XmlNode → Bool
  | .text _ => true
  | .elem _ attrs children =>
    attrs.all (fun a => !attrDangerous a.1 a.2) && noBadAttrNodes children
/-- `noBadAttrNode` over a child list. -/
def noBadAttrNodes : List XmlNode → Bool
  | [] => true
  | n :: r => noBadAttrNode n && noBadAttrNodes r
end

mutual
theorem removeForbidden_clean_node (t : XmlNode) :
    (removeForbiddenNode t).all noForbiddenNode = true := by
  match t with
  | .text s => rfl
  | .elem tag attrs children =>
    by_cases h : tag ∈ forbiddenElements
    · simp [removeForbiddenNode, h]
    · simp [removeForbiddenNode, h, noForbiddenNode,
        removeForbidden_clean_nodes children]
theorem removeForbidden_clean_nodes (l : List XmlNode) :
    noForbiddenNodes (removeForbiddenNodes l) = true := by
  match l with
  | [] => rfl
  | n :: r =>
    have hn := removeForbidden_clean_node n
    cases hm : removeForbiddenNode n with
    | none => simpa [removeForbiddenNodes, hm] using removeForbidden_clean_nodes r
    | some m =>
      rw [hm] at hn
      simp only [Option.all_some] at hn
      simp [removeForbiddenNodes, hm, noForbiddenNodes,
        removeForbidden_clean_nodes r, hn]
end

mutual
theorem removeForbidden_id_node (t : XmlNode) (h : noForbiddenNode t = true) :
    removeForbiddenNode t = some t := by
  match t with
  | .text s => rfl
  | .elem tag attrs children =>
    by_cases hm : tag ∈ forbiddenElements
    · simp [noForbiddenNode, hm] at h
    · simp only [noForbiddenNode, if_neg hm] at h
      simp [removeForbiddenNode, hm, removeForbidden_id_nodes children h]
theorem removeForbidden_id_nodes (l : List XmlNode) (h : noForbiddenNodes l = true) :
    removeForbiddenNodes l = l := by
  match l with
  | [] => rfl
  | n :: r =>
    simp only [noForbiddenNodes, Bool.and_eq_true] at h
    simp [removeForbiddenNodes, removeForbidden_id_node n h.1,
      removeForbidden_id_nodes r h.2]
end

mutual
theorem stripAttrs_noForbidden_node (t : XmlNode) :
    noForbiddenNode (stripAttrsNode t) = noForbiddenNode t := by
  match t with
  | .text s => rfl
  | .elem tag attrs children =>
    simp [stripAttrsNode, noForbiddenNode, stripAttrs_noForbidden_nodes children]
theorem stripAttrs_noForbidden_nodes (l : List XmlNode) :
    noForbiddenNodes (stripAttrsNodes l) = noForbiddenNodes l := by
  match l with
  | [] => rfl
  | n :: r =>
    simp [stripAttrsNodes, noForbiddenNodes, stripAttrs_noForbidden_node n,
      stripAttrs_noForbidden_nodes r]
end

mutual
theorem stripAttrs_clean_node (t : XmlNode) :
    noBadAttrNode (stripAttrsNode t) = true := by
  match t with
  | .text s => rfl
  | .elem tag attrs children =>
    simp only [stripAttrsNode, noBadAttrNode, Bool.and_eq_true]
    refine ⟨?_, stripAttrs_clean_nodes children⟩
    rw [List.all_eq_true]
    intro a ha
    exact (List.mem_filter.mp ha).2
theorem stripAttrs_clean_nodes (l : List XmlNode) :
    noBadAttrNodes (stripAttrsNodes l) = true := by
  match l with
  | [] => rfl
  | n :: r =>
    simp [stripAttrsNodes, noBadAttrNodes, stripAttrs_clean_node n,
      stripAttrs_clean_nodes r]
end

mutual
theorem stripAttrs_id_node (t : XmlNode) (h : noBadAttrNode t = true) :
    stripAttrsNode t = t := by
  match t with
  | .text s => rfl
  | .elem tag attrs children =>
    simp only [noBadAttrNode, Bool.and_eq_true] at h
    simp only [stripAttrsNode, stripAttrs_id_nodes children h.2]
    rw [List.filter_eq_self.mpr]
    intro a ha
    exact (List.all_eq_true.mp h.1) a ha
theorem stripAttrs_id_nodes (l : List XmlNode) (h : noBadAttrNodes l = true) :
    stripAttrsNodes l = l := by
  match l with
  | [] => rfl
  | n :: r =>
    simp only [noBadAttrNodes, Bool.and_eq_true] at h
    simp [stripAttrsNodes, stripAttrs_id_node n h.1, stripAttrs_id_nodes r h.2]
end

/-- C1: whatever tree `_sanitizeSvgContent` scrubs, the result (when the
root survives) contains zero elements of tag kind script, object, embed,
iframe, form or input — in particular zero script elements — and no
element retains an attribute whose name begins with `on` or whose value
contains the case-insensitive substring `javascript:`. -/
theorem sanitizeSvgContent_output_clean (t : XmlNode) :
    (sanitizeSvgTree t).all
      (fun m => noForbiddenNode m && noBadAttrNode m) = true := by
  unfold sanitizeSvgTree
  cases hm : removeForbiddenNode t with
  | none => rfl
  | some u =>
    have hu := removeForbidden_clean_node t
    rw [hm] at hu
    simp only [Option.all_some] at hu
    simp [Option.all_some, stripAttrs_noForbidden_node u, hu,
      stripAttrs_clean_node u]

/-- C3: `_sanitizeSvgContent` is idempotent on parsed trees — scrubbing a
second time changes nothing, because the first pass leaves no forbidden
element and no dangerous attribute behind. -/
theorem sanitizeSvgContent_idempotent (t : XmlNode) :
    (sanitizeSvgTree t).bind sanitizeSvgTree = sanitizeSvgTree t := by
  cases hm : removeForbiddenNode t with
  | none => simp [sanitizeSvgTree, hm]
  | some u =>
    have hu := removeForbidden_clean_node t
    rw [hm] at hu
    simp only [Option.all_some] at hu
    have h1 : noForbiddenNode (stripAttrsNode u) = true := by
      rw [stripAttrs_noForbidden_node u]; exact hu
    simp [sanitizeSvgTree, hm, removeForbidden_id_node _ h1,
      stripAttrs_id_node _ (stripAttrs_clean_node u)]

/-! ## Renderer view state (src/js/renderer.js)

`zoomLevel`, `translateX`, `translateY` and the output container are the
mutable fields of `Renderer`; float arithmetic of the zoom clamp is
embedded exactly over `ℚ`. -/

/-- What the `mermaidOutput` container currently displays; a rendered
diagram records the markup swapped in and the transform last applied to
its svg node by `applyTransform`. -/
inductive OutputContent where
  | initial : OutputContent
  | prompt : OutputContent
  | diagram : String → ℚ × ℚ × ℚ → OutputContent
  | errorText : String → OutputContent

/-- The view-relevant state of a `Renderer` instance. -/
structure RendererState where
  zoomLevel : ℚ
  translateX : ℚ
  translateY : ℚ
  panEnabled : Bool
  output : OutputContent

/-- Constructor state: `zoomLevel = 1`, translations `0`, pan off. -/
def initialRenderer : RendererState :=
  ⟨1, 0, 0, false, OutputContent.initial⟩

/-- `applyTransform` on the svg node, when one is displayed. -/
def applyToSvg (o : OutputContent) (tr : ℚ × ℚ × ℚ) : OutputContent :=
  match o with
  | OutputContent.diagram m _ => OutputContent.diagram m tr
  | o => o

/-- The clamp of `Renderer.zoom`:
`Math.max(0.2, Math.min(5, this.zoomLevel + delta))`. -/
def zoomClamp (z delta : ℚ) : ℚ :=
  max 0.2 (min 5 (z + delta))

/-- `Renderer.zoom(delta)` (also reached by `zoomIn`/`zoomOut` with
`delta = ±0.1` and by the wheel handler): clamps the new zoom level and
re-applies the transform to the displayed svg. -/
def rendererZoom (s : RendererState) (delta : ℚ) : RendererState :=
  let z := zoomClamp s.zoomLevel delta
  { s with zoomLevel := z,
           output := applyToSvg s.output (z, s.translateX, s.translateY) }

/-- `Renderer.resetZoom`: sets the view transform to the identity and
re-applies it to the displayed svg. -/
def rendererResetZoom (s : RendererState) : RendererState :=
  { s with zoomLevel := 1, translateX := 0, translateY := 0,
           output := applyToSvg s.output (1, 0, 0) }

/-- The surface identifier generated per non-empty render:
`mermaid-diagram-${Date.now()}` — the millisecond timestamp, nothing
else. -/
def diagramSurfaceId (now : Nat) : String :=
  "mermaid-diagram-" ++ toString now

/-- The identifier a `renderDiagram(content)` call submits to
`mermaid.render`, given the call's `Date.now()` value: none when the
content is empty/whitespace-only (no library call is made). -/
def submittedSurfaceId (content : String) (now : Nat) : Option String :=
  if jsTrim content = "" then none else some (diagramSurfaceId now)

/-- `Renderer.renderDiagram(content)`: empty/whitespace content shows the
prompt; otherwise the outcome of the asynchronous `mermaid.render` call
(embedded as an explicit `Except`) either swaps the returned markup into
the container — `setupZoomAndPan` then applies the CURRENT transform to
the new svg node — or, on error, shows the error text. -/
def renderDiagram (s : RendererState) (content : String)
    (outcome : Except String String) : RendererState :=
  if jsTrim content = "" then { s with output := OutputContent.prompt }
  else
    match outcome with
    | Except.ok svg =>
      { s with
        output := OutputContent.diagram svg (s.zoomLevel, s.translateX, s.translateY) }
    | Except.error msg =>
      { s with
        output := OutputContent.errorText ("Error rendering diagram: " ++ msg) }

lemma zoomClamp_bounds (z delta : ℚ) :
    0.2 ≤ zoomClamp z delta ∧ zoomClamp z delta ≤ 5 := by
  unfold zoomClamp
  constructor
  · exact le_max_left _ _
  · exact max_le (by norm_num) (min_le_left _ _)

/-- C6: starting from the initial `zoomFactor` of 1, no sequence of zoom
calls of any cumulative delta magnitude or sign drives the zoom level
outside `[0.2, 5]`; indeed every single zoom call lands inside the bounds
from any state. -/
theorem zoom_bounded (deltas : List ℚ) :
    0.2 ≤ (deltas.foldl rendererZoom initialRenderer).zoomLevel ∧
      (deltas.foldl rendererZoom initialRenderer).zoomLevel ≤ 5 := by
  have step : ∀ (s : RendererState) (d : ℚ),
      0.2 ≤ (rendererZoom s d).zoomLevel ∧ (rendererZoom s d).zoomLevel ≤ 5 :=
    fun s d => zoomClamp_bounds s.zoomLevel d
  have general : ∀ (l : List ℚ) (s : RendererState),
      0.2 ≤ s.zoomLevel ∧ s.zoomLevel ≤ 5 →
      0.2 ≤ (l.foldl rendererZoom s).zoomLevel ∧
        (l.foldl rendererZoom s).zoomLevel ≤ 5 := by
    intro l
    induction l with
    | nil => intro s hs; exact hs
    | cons d r ih => intro s _; exact ih (rendererZoom s d) (step s d)
  exact general deltas initialRenderer (by constructor <;> norm_num [initialRenderer])

lemma zoomClamp_one_one : zoomClamp 1 1 = 2 := by
  unfold zoomClamp
  rw [show (1 + 1 : ℚ) = 2 by norm_num,
    min_eq_right (by norm_num : (2 : ℚ) ≤ 5),
    max_eq_right (by norm_num : (0.2 : ℚ) ≤ 2)]

/-- C7 counterexample: after zooming the initial view to level 2, a new
successful render does NOT reset the view transform — the new svg is
shown with the persisting transform `(2, 0, 0)`, not the identity. -/
theorem render_no_reset_counterexample :
    (renderDiagram (rendererZoom initialRenderer 1) "graph TD"
        (Except.ok "svgmarkup")).zoomLevel = 2 ∧
    (renderDiagram (rendererZoom initialRenderer 1) "graph TD"
        (Except.ok "svgmarkup")).output
      = OutputContent.diagram "svgmarkup" (2, 0, 0) ∧
    (2 : ℚ) ≠ 1 := by
  have hz : rendererZoom initialRenderer 1
      = ⟨2, 0, 0, false, OutputContent.initial⟩ := by
    unfold rendererZoom initialRenderer
    rw [zoomClamp_one_one]; rfl
  rw [hz]
  refine ⟨?_, ?_, by norm_num⟩ <;>
    simp [renderDiagram, show jsTrim "graph TD" ≠ "" from by decide]

/-- C7 amended: `resetZoom` sets the view transform to the identity
`(1, 0, 0)`; a successful render of non-empty source leaves the current
transform untouched and applies it, unchanged, to the freshly swapped-in
svg (no reset on render). -/
theorem resetZoom_identity_render_preserves (s : RendererState)
    (content svg : String) (h : jsTrim content ≠ "") :
    (rendererResetZoom s).zoomLevel = 1 ∧
    (rendererResetZoom s).translateX = 0 ∧
    (rendererResetZoom s).translateY = 0 ∧
    renderDiagram s content (Except.ok svg)
      = { s with
          output := OutputContent.diagram svg (s.zoomLevel, s.translateX, s.translateY) } := by
  refine ⟨rfl, rfl, rfl, ?_⟩
  simp [renderDiagram, h]

/-- Witness for the amended view-transform claim at a concrete zoomed
state and the source `graph TD`. -/
theorem resetZoom_identity_render_preserves_witness :
    jsTrim "graph TD" ≠ "" ∧
    (rendererResetZoom ⟨3, 7, 9, true, OutputContent.initial⟩).zoomLevel = 1 ∧
    renderDiagram ⟨3, 7, 9, true, OutputContent.initial⟩ "graph TD" (Except.ok "m")
      = ⟨3, 7, 9, true, OutputContent.diagram "m" (3, 7, 9)⟩ := by
  have h := resetZoom_identity_render_preserves
    ⟨3, 7, 9, true, OutputContent.initial⟩ "graph TD" "m" (by decide)
  exact ⟨by decide, h.1, h.2.2.2⟩

/-- C8 counterexample: the surface identifier is
`mermaid-diagram-${Date.now()}` with no random suffix, so two distinct
render calls (here with different source text) falling in the same
millisecond submit the SAME identifier to the rendering library. -/
theorem surfaceId_collision_counterexample :
    submittedSurfaceId "graph TD\n A-->B" 1755000000000
      = submittedSurfaceId "graph LR\n X-->Y" 1755000000000 ∧
    submittedSurfaceId "graph TD\n A-->B" 1755000000000
      = some "mermaid-diagram-1755000000000" := by
  constructor
  · rfl
  · show (if jsTrim "graph TD\n A-->B" = "" then none
        else some (diagramSurfaceId 1755000000000))
      = some "mermaid-diagram-1755000000000"
    rw [if_neg (by decide)]
    exact congrArg some (by decide)

/-- C8 amended: for every non-empty source the submitted surface
identifier is exactly the timestamp-keyed string
`mermaid-diagram-${Date.now()}` — deterministic in the timestamp alone,
so identifiers of render calls sharing a millisecond coincide; for
empty/whitespace source no identifier is generated. -/
theorem surfaceId_timestamp_only (c₁ c₂ : String) (now : Nat)
    (h₁ : jsTrim c₁ ≠ "") (h₂ : jsTrim c₂ ≠ "") :
    submittedSurfaceId c₁ now = some (diagramSurfaceId now) ∧
    submittedSurfaceId c₁ now = submittedSurfaceId c₂ now ∧
    (∀ e : String, jsTrim e = "" → submittedSurfaceId e now = none) := by
  refine ⟨?_, ?_, ?_⟩
  · simp [submittedSurfaceId, h₁]
  · simp [submittedSurfaceId, h₁, h₂]
  · intro e he; simp [submittedSurfaceId, he]

/-- Witness for the amended surface-identifier claim at two concrete
sources and the timestamp 42. -/
theorem surfaceId_timestamp_only_witness :
    submittedSurfaceId "graph TD" 42 = some (diagramSurfaceId 42) ∧
    submittedSurfaceId "graph TD" 42 = submittedSurfaceId "pie" 42 ∧
    submittedSurfaceId "  " 42 = none := by
  have h := surfaceId_timestamp_only "graph TD" "pie" 42 (by decide) (by decide)
  exact ⟨h.1, h.2.1, h.2.2 "  " (by decide)⟩

/-! ## ThemeManager.switchTheme (unnamed/part_007)

State passed explicitly: the in-memory `currentTheme`, the persisted
localStorage slot `mermaid-theme`, the theme last applied to the
rendering library, and a counter of `renderer.reRender()` submissions. -/

/-- The keys of `_initializeThemeDefinitions`: the three built-in
themes. -/
def themeKeys : List String :=
  ["default", "dark", "custom"]

/-- `_isValidTheme(themeKey)`: a truthy string that is a key of
`this.themes`. -/
def isValidTheme (k : String) : Bool :=
  !(k == "") && decide (k ∈ themeKeys)

/-- The observable state of a `ThemeManager` instance. -/
structure ThemeManagerState where
  currentTheme : String
  storedTheme : Option String
  appliedTheme : Option String
  rerenderCount : Nat

/-- `getCurrentTheme()`. -/
def getCurrentTheme (s : ThemeManagerState) : String :=
  s.currentTheme

/-- `switchTheme(themeKey)`: invalid keys are rejected with `false`; a
key equal to the already-active theme short-circuits with `true` before
applying, persisting, or re-rendering anything; otherwise the theme is
applied, persisted via `_saveTheme`, the renderer re-renders the current
diagram source, and `true` is returned. -/
def switchTheme (s : ThemeManagerState) (k : String) : Bool × ThemeManagerState :=
  if !(isValidTheme k) then (false, s)
  else if k = s.currentTheme then (true, s)
  else
    (true,
      { currentTheme := k, storedTheme := some k, appliedTheme := some k,
        rerenderCount := s.rerenderCount + 1 })

/-- C4 counterexample: with nothing persisted yet and `default` active
(the constructor's state), `switchTheme "default"` is a recognized-key
call that returns `true` — a successful switch — yet persists nothing to
storage and triggers no re-render, contradicting "persists that key to
storage ... and re-submits ... on every successful switch". -/
theorem switchTheme_same_key_counterexample :
    (switchTheme ⟨"default", none, none, 0⟩ "default").1 = true ∧
    (switchTheme ⟨"default", none, none, 0⟩ "default").2.storedTheme = none ∧
    (switchTheme ⟨"default", none, none, 0⟩ "default").2.rerenderCount = 0 := by
  refine ⟨?_, ?_, ?_⟩ <;> rfl

/-- C4 amended: an unrecognized key returns `false` and leaves the state
— in particular `getCurrentTheme` — unchanged; a recognized key equal to
the active theme returns `true` with no state change, no persist and no
re-render; a recognized key different from the active theme activates
it, persists it to storage, re-submits the current diagram source
(exactly one re-render) and returns `true`. -/
theorem switchTheme_cases (s : ThemeManagerState) (k : String) :
    (isValidTheme k = false →
      switchTheme s k = (false, s) ∧
      getCurrentTheme (switchTheme s k).2 = getCurrentTheme s) ∧
    (isValidTheme k = true → k = s.currentTheme →
      switchTheme s k = (true, s)) ∧
    (isValidTheme k = true → k ≠ s.currentTheme →
      switchTheme s k
        = (true, ⟨k, some k, some k, s.rerenderCount + 1⟩)) := by
  refine ⟨?_, ?_, ?_⟩
  · intro h
    have : switchTheme s k = (false, s) := by simp [switchTheme, h]
    exact ⟨this, by rw [this]⟩
  · intro h hk
    subst hk
    simp [switchTheme, h]
  · intro h hk
    simp [switchTheme, h, hk]

/-- Witness for the amended `switchTheme` claim: from the fresh state,
the unknown key `neon` is rejected without a theme change, the active
key `default` is a no-op `true`, and `dark` activates, persists and
re-renders once. -/
theorem switchTheme_cases_witness :
    switchTheme ⟨"default", none, none, 0⟩ "neon"
      = (false, ⟨"default", none, none, 0⟩) ∧
    switchTheme ⟨"default", none, none, 0⟩ "default"
      = (true, ⟨"default", none, none, 0⟩) ∧
    switchTheme ⟨"default", none, none, 0⟩ "dark"
      = (true, ⟨"dark", some "dark", some "dark", 1⟩) := by
  have h := switchTheme_cases ⟨"default", none, none, 0⟩
  exact ⟨(h "neon").1 (by decide) |>.1,
    (h "default").2.1 (by decide) rfl,
    (h "dark").2.2 (by decide) (by decide)⟩

/-! ## LoadExamples catalogue parser (unnamed/part_006 and loadExamples.js)

Both loaders drive the same global regular expression
`/## (.+?)\n```mermaid\n([\s\S]+?)```/g` over the fetched text with
`exec` in a loop. Its semantics are re-implemented directly: a match
starts at the earliest position offering `## `; the lazy `(.+?)\n` (dot
excludes newlines) takes the non-empty remainder of that line up to its
first newline, which must be immediately followed by the fence
`` ```mermaid `` and a newline; the lazy `([\s\S]+?)` then takes at
least one character up to the earliest closing `` ``` ``; scanning
resumes after the closing fence. -/

/-- Split at the first newline: the lazy `(.+?)\n` with `.` excluding
newlines can only stop there. -/
def splitAtNl : List Char → Option (List Char × List Char)
  | [] => none
  | c :: r =>
    if c = '\n' then some ([], r)
    else (splitAtNl r).map (fun p => (c :: p.1, p.2))

/-- Split at the earliest occurrence of `` ``` ``, returning the part
before it and the part after it. -/
def splitMarker : List Char → Option (List Char × List Char)
  | [] => none
  | c :: r =>
    if startsWithL ['`', '`', '`'] (c :: r) then some ([], r.drop 2)
    else (splitMarker r).map (fun p => (c :: p.1, p.2))

/-- The lazy `([\s\S]+?)` followed by `` ``` ``: at least one character,
then the earliest closing fence. -/
def lazyCode : List Char → Option (List Char × List Char)
  | [] => none
  | c :: r => (splitMarker r).map (fun p => (c :: p.1, p.2))

/-- One attempted match of the example regex at the start of the list:
`## `, the non-empty rest of the line, a newline, `` ```mermaid `` and a
newline, the lazy code, the closing fence. Returns title, code and the
unconsumed remainder. -/
def tryMatchExample (l : List Char) : Option (List Char × List Char × List Char) :=
  match l with
  | '#' :: '#' :: ' ' :: rest =>
    match splitAtNl rest with
    | none => none
    | some (title, afterNl) =>
      if title = [] then none
      else if startsWithL "```mermaid\n".data afterNl then
        match lazyCode (afterNl.drop 11) with
        | none => none
        | some (code, rest2) => some (title, code, rest2)
      else none
  | _ => none

lemma splitAtNl_len : ∀ {l a b : List Char},
    splitAtNl l = some (a, b) → b.length < l.length := by
  intro l
  induction l with
  | nil => intro a b h; simp [splitAtNl] at h
  | cons c r ih =>
    intro a b h
    simp only [splitAtNl] at h
    by_cases hc : c = '\n'
    · rw [if_pos hc] at h
      simp only [Option.some.injEq, Prod.mk.injEq] at h
      simp [← h.2]
    · rw [if_neg hc] at h
      cases hsp : splitAtNl r with
      | none => rw [hsp] at h; simp at h
      | some p =>
        obtain ⟨p1, p2⟩ := p
        rw [hsp] at h
        simp at h
        have := ih hsp
        rw [← h.2]
        simp
        omega

lemma splitMarker_len : ∀ {l a b : List Char},
    splitMarker l = some (a, b) → b.length < l.length := by
  intro l
  induction l with
  | nil => intro a b h; simp [splitMarker] at h
  | cons c r ih =>
    intro a b h
    simp only [splitMarker] at h
    by_cases hc : startsWithL ['`', '`', '`'] (c :: r) = true
    · rw [if_pos hc] at h
      simp only [Option.some.injEq, Prod.mk.injEq] at h
      rw [← h.2]
      simp only [List.length_drop, List.length_cons]
      omega
    · rw [if_neg hc] at h
      cases hsp : splitMarker r with
      | none => rw [hsp] at h; simp at h
      | some p =>
        obtain ⟨p1, p2⟩ := p
        rw [hsp] at h
        simp at h
        have := ih hsp
        rw [← h.2]
        simp
        omega

lemma lazyCode_len : ∀ {l a b : List Char},
    lazyCode l = some (a, b) → b.length < l.length := by
  intro l a b h
  cases l with
  | nil => simp [lazyCode] at h
  | cons c r =>
    simp only [lazyCode] at h
    cases hsp : splitMarker r with
    | none => rw [hsp] at h; simp at h
    | some p =>
      obtain ⟨p1, p2⟩ := p
      rw [hsp] at h
      simp at h
      have := splitMarker_len hsp
      rw [← h.2]
      simp
      omega

lemma tryMatchExample_len : ∀ {l t c rest : List Char},
    tryMatchExample l = some (t, c, rest) → rest.length < l.length := by
  intro l t c rest h
  unfold tryMatchExample at h
  split at h
  · split at h
    · simp at h
    · rename_i rest0 title afterNl hsp
      split at h
      · simp at h
      · split at h
        · split at h
          · simp at h
          · rename_i code rest2 hlc
            simp only [Option.some.injEq, Prod.mk.injEq] at h
            have h1 := splitAtNl_len hsp
            have h2 := lazyCode_len hlc
            have h3 : (afterNl.drop 11).length ≤ afterNl.length := by simp
            rw [← h.2.2]
            simp only [List.length_cons]
            omega
        · simp at h
  · simp at h

/-- The `while ((match = regex.exec(content)) !== null)` loop: collect
matches left to right, resuming after each match's closing fence and
advancing one character past positions where no match starts. -/
def scanExamples : List Char → List (List Char × List Char)
  | [] => []
  | c :: r =>
    match h : tryMatchExample (c :: r) with
    | some (t, cd, rest) => (t, cd) :: scanExamples rest
    | none => scanExamples r
termination_by l => l.length
decreasing_by
  · exact tryMatchExample_len h
  · simp

lemma scanExamples_nil : scanExamples [] = [] := by
  rw [scanExamples]

lemma scanExamples_cons_some {c : Char} {r t cd rest : List Char}
    (h : tryMatchExample (c :: r) = some (t, cd, rest)) :
    scanExamples (c :: r) = (t, cd) :: scanExamples rest := by
  rw [scanExamples]
  split
  · rename_i t' cd' rest' heq
    rw [h] at heq
    simp at heq
    rw [heq.1, heq.2.1, heq.2.2]
  · rename_i heq
    rw [h] at heq
    simp at heq

lemma scanExamples_cons_none {c : Char} {r : List Char}
    (h : tryMatchExample (c :: r) = none) :
    scanExamples (c :: r) = scanExamples r := by
  rw [scanExamples]
  split
  · rename_i t' cd' rest' heq
    rw [h] at heq
    simp at heq
  · rfl

lemma scanExamples_eq_some {l t cd rest : List Char} (hl : l ≠ [])
    (h : tryMatchExample l = some (t, cd, rest)) :
    scanExamples l = (t, cd) :: scanExamples rest := by
  cases l with
  | nil => exact absurd rfl hl
  | cons c r => exact scanExamples_cons_some h

lemma scanExamples_eq_none {l : List Char} (hl : l ≠ [])
    (h : tryMatchExample l = none) :
    scanExamples l = scanExamples l.tail := by
  cases l with
  | nil => exact absurd rfl hl
  | cons c r => exact scanExamples_cons_none h

/-- One parsed catalogue entry: `{title, code}`. -/
structure ExampleSnippet where
  title : String
  code : String
deriving DecidableEq

/-- `_parseExamples` of the class-based loader (unnamed/part_006): each
regex match is passed through `_sanitizeTitle` (trim then
`sanitizeInput`) and `_sanitizeCode` (the `WHITESPACE_CLEANER` trim) and
kept only when both results are non-empty (truthy). -/
def parseExamplesV2 (content : String) : List ExampleSnippet :=
  (scanExamples content.data).filterMap (fun p =>
    let title : String := sanitizeInput ⟨trimL p.1⟩
    let code : String := ⟨trimL p.2⟩
    if title ≠ "" ∧ code ≠ "" then some ⟨title, code⟩ else none)

/-- The legacy `loadExamples` parser (loadExamples.js): every regex
match is pushed as-is, `{title: match[1], code: match[2]}`, with no
escaping, no trimming and no emptiness filter. -/
def parseExamplesLegacy (content : String) : List ExampleSnippet :=
  (scanExamples content.data).map (fun p => ⟨⟨p.1⟩, ⟨p.2⟩⟩)

/-! ## LoadExamples fetch with retries and load() (unnamed/part_006) -/

/-- Outcome of one `fetch` attempt: a network/HTTP/size-header failure
(anything thrown before the body is read), or a response body. -/
inductive FetchOutcome where
  | fail : FetchOutcome
  | ok : String → FetchOutcome

/-- `CONFIG.RETRY_ATTEMPTS`. -/
def retryAttemptsDefault : Nat := 3

/-- `CONFIG.RETRY_DELAY` in milliseconds. -/
def retryDelayMs : Nat := 1000

/-- `CONFIG.MAX_FILE_SIZE`: 1 MiB. -/
def maxExamplesFileSize : Nat := 1024 * 1024

/-- `_fetchExamplesFile(attempt)`: consult the network oracle for this
attempt; an over-long body is thrown and caught like any other fetch
error; while `attempt < retryAttempts` a failure waits
`RETRY_DELAY * attempt` (linear backoff) and recurses with
`attempt + 1`, otherwise the fetch error propagates. Returns the result
together with the list of backoff delays taken. -/
def fetchExamplesFile (net : Nat → FetchOutcome) (retryN maxSize attempt : Nat) :
    Except String String × List Nat :=
  match net attempt with
  | FetchOutcome.ok content =>
    if maxSize < content.length then
      if _h : attempt < retryN then
        let r := fetchExamplesFile net retryN maxSize (attempt + 1)
        (r.1, retryDelayMs * attempt :: r.2)
      else (Except.error "Failed to fetch examples file", [])
    else (Except.ok content, [])
  | FetchOutcome.fail =>
    if _h : attempt < retryN then
      let r := fetchExamplesFile net retryN maxSize (attempt + 1)
      (r.1, retryDelayMs * attempt :: r.2)
    else (Except.error "Failed to fetch examples file", [])
termination_by retryN + 1 - attempt
decreasing_by all_goals omega

/-- `_parseExamples(content)` of the class-based loader with its leading
guard: `if (!content || typeof content !== 'string')` throws
`INVALID_CONTENT`, so a falsy (empty) body errors with
`Invalid examples file content` before the regex loop ever runs; after
the loop, zero collected snippets throw `NO_EXAMPLES`. -/
def parseExamplesResult (content : String) : Except String (List ExampleSnippet) :=
  if content = "" then Except.error "Invalid examples file content"
  else
    let snippets := parseExamplesV2 content
    if snippets.isEmpty then Except.error "No examples found in the file"
    else Except.ok snippets

/-- The `loadExamples()` pipeline up to the parsed snippet list (the
value stored in `this.examples`): fetch starting at attempt 1 with the
default configuration, then `_parseExamples` with its guard and
empty-catalogue error. -/
def loadResult (net : Nat → FetchOutcome) : Except String (List ExampleSnippet) :=
  match (fetchExamplesFile net retryAttemptsDefault maxExamplesFileSize 1).1 with
  | Except.error e => Except.error e
  | Except.ok content => parseExamplesResult content

/-! ## Examples popup HTML generators

Template literals decompose into their fixed chunks and the interpolated
values; the chunks below keep the tag and attribute structure of the
source templates with the indentation runs of the literals elided (they
carry no markup meaning). -/

/-- `_generateSnippetHTML` chunk before the interpolated title. -/
def snippetChunk1 (i : Nat) : String :=
  "<div class=\"snippet\" id=\"snippet-" ++ toString i ++
    "\"><div class=\"snippet-header\"><h3>"

/-- `_generateSnippetHTML` chunk between title and code. -/
def snippetChunk2 (i : Nat) : String :=
  "</h3></div><div class=\"code-container\"><div class=\"code-header\">" ++
    "<span>mermaid</span><button class=\"copy-btn\" aria-label=\"Copy code\"" ++
    " aria-describedby=\"code-" ++ toString i ++ "\" type=\"button\">" ++
    "<i class=\"fas fa-copy\" aria-hidden=\"true\"></i></button></div>" ++
    "<pre class=\"code-block\" role=\"region\" aria-label=\"Code example\">" ++
    "<code class=\"example-code\" id=\"code-" ++ toString i ++ "\">"

/-- `_generateSnippetHTML` chunk after the interpolated code. -/
def snippetChunk3 : String :=
  "</code></pre></div><button class=\"use-btn\" type=\"button\"" ++
    " aria-label=\"Use this example in the editor\">Use This Example</button></div>"

/-- `_generateSnippetHTML(snippet, index)` of the class-based loader:
the already-parse-time-escaped title and `sanitizeInput(code)` are
interpolated into the markup string. -/
def generateSnippetHtmlV2 (sn : ExampleSnippet) (i : Nat) : String :=
  snippetChunk1 i ++ sn.title ++ snippetChunk2 i ++ sanitizeInput sn.code ++
    snippetChunk3

/-- `_generateHTML(snippets)`: the joined snippet markup inside the
region wrapper; this string is assigned to the popup via `innerHTML`
(markup assignment). -/
def generateHtmlV2 (snippets : List ExampleSnippet) : String :=
  "<div role=\"region\" aria-label=\"Mermaid diagram examples\">" ++
    "<h2>Mermaid Diagram Examples</h2><div class=\"examples-container\">" ++
    String.join (snippets.enum.map (fun p => generateSnippetHtmlV2 p.2 p.1)) ++
    "</div></div>"

/-- The fallback markup `loadExamples()` returns when fetching or
parsing fails (`examples-error` card with the sanitized message). -/
def fallbackExamplesHtml (msg : String) : String :=
  "<div class=\"examples-error\" role=\"alert\"><h2>Examples Unavailable</h2>" ++
    "<p>Unable to load diagram examples. Please check your connection and try again.</p>" ++
    "<details><summary>Technical Details</summary><p>" ++ sanitizeInput msg ++
    "</p></details></div>"

/-- `loadExamples()` of the class-based loader: the generated popup
markup on success, the fallback card on any caught error. -/
def loadExamplesHtmlV2 (net : Nat → FetchOutcome) : String :=
  match loadResult net with
  | Except.error e => fallbackExamplesHtml e
  | Except.ok snippets => generateHtmlV2 snippets

/-- Legacy template chunk before the interpolated raw title. -/
def legacyChunkA : String :=
  "<div class=\"snippet\"><h3>"

/-- Legacy template chunk between raw title and raw code. -/
def legacyChunkB : String :=
  "</h3><pre><code class=\"example-code\">"

/-- Legacy template chunk after the raw code. -/
def legacyChunkC : String :=
  "</code></pre><button class=\"copy-btn\">Copy</button></div>"

/-- One snippet of the legacy `loadExamples` template: `snippet.title`
and `snippet.code` are interpolated into the markup with no escaping. -/
def legacySnippetHtml (sn : ExampleSnippet) : String :=
  legacyChunkA ++ sn.title ++ legacyChunkB ++ sn.code ++ legacyChunkC

/-- The legacy popup markup (assigned to the popup via `innerHTML`). -/
def legacyExamplesHtml (snippets : List ExampleSnippet) : String :=
  "<h2>Mermaid Diagram Examples</h2><div class=\"examples-container\">" ++
    String.join (snippets.map legacySnippetHtml) ++ "</div>"

lemma parseExamplesV2_empty : parseExamplesV2 "" = [] := by
  unfold parseExamplesV2
  rw [show ("" : String).data = [] from rfl, scanExamples_nil]
  rfl

set_option maxRecDepth 4000 in
/-- C5 counterexample: a successful fetch of the empty body is "a
successful fetch from which zero snippets parse", yet the fallback card
carries the invalid-content message of `_parseExamples`'s leading guard
(the empty body is falsy and throws before the regex loop), not the
empty-catalogue message the claim names. -/
theorem examplesStore_empty_body_counterexample :
    parseExamplesV2 "" = [] ∧
    loadExamplesHtmlV2 (fun _ => FetchOutcome.ok "")
      = fallbackExamplesHtml "Invalid examples file content" ∧
    fallbackExamplesHtml "Invalid examples file content"
      ≠ fallbackExamplesHtml "No examples found in the file" := by
  refine ⟨parseExamplesV2_empty, ?_, by decide⟩
  have hfetch : fetchExamplesFile (fun _ => FetchOutcome.ok "")
      retryAttemptsDefault maxExamplesFileSize 1 = (Except.ok "", []) := by
    rw [fetchExamplesFile]
    simp [show ("" : String).length = 0 from rfl]
  unfold loadExamplesHtmlV2 loadResult parseExamplesResult
  rw [hfetch]
  rfl

/-- C5 amended: the examples fetch fails only after the 3 configured
attempts with linear backoff (waits of 1000 ms then 2000 ms); when the
first two attempts fail and the third returns a body within the size
limit, `load()` returns exactly the snippets parsed from that body; a
successful fetch of a non-empty body from which zero snippets parse
surfaces the empty-catalogue error as the non-fatal fallback markup, and
a successful fetch of an empty body surfaces the invalid-content error
of the parser's leading guard, likewise as the non-fatal fallback markup
— neither is a crash. -/
theorem examplesStore_load_retries (net : Nat → FetchOutcome) (c : String) :
    (net 1 = FetchOutcome.fail → net 2 = FetchOutcome.fail →
      net 3 = FetchOutcome.fail →
      fetchExamplesFile net retryAttemptsDefault maxExamplesFileSize 1
        = (Except.error "Failed to fetch examples file", [1000, 2000])) ∧
    (net 1 = FetchOutcome.fail → net 2 = FetchOutcome.fail →
      net 3 = FetchOutcome.ok c → c.length ≤ maxExamplesFileSize →
      fetchExamplesFile net retryAttemptsDefault maxExamplesFileSize 1
        = (Except.ok c, [1000, 2000]) ∧
      ((parseExamplesV2 c).isEmpty = false →
        loadResult net = Except.ok (parseExamplesV2 c))) ∧
    (net 1 = FetchOutcome.ok c → c.length ≤ maxExamplesFileSize → c ≠ "" →
      (parseExamplesV2 c).isEmpty = true →
      loadExamplesHtmlV2 net
        = fallbackExamplesHtml "No examples found in the file") ∧
    (net 1 = FetchOutcome.ok "" →
      loadExamplesHtmlV2 net
        = fallbackExamplesHtml "Invalid examples file content") := by
  refine ⟨?_, ?_, ?_, ?_⟩
  · intro h1 h2 h3
    rw [fetchExamplesFile, h1]
    norm_num [retryAttemptsDefault]
    rw [fetchExamplesFile, h2]
    norm_num
    rw [fetchExamplesFile, h3]
    norm_num
    simp [retryDelayMs]
  · intro h1 h2 h3 hlen
    have hfetch : fetchExamplesFile net retryAttemptsDefault maxExamplesFileSize 1
        = (Except.ok c, [1000, 2000]) := by
      rw [fetchExamplesFile, h1]
      norm_num [retryAttemptsDefault]
      rw [fetchExamplesFile, h2]
      norm_num
      rw [fetchExamplesFile, h3]
      simp [Nat.not_lt.mpr hlen, retryDelayMs]
    refine ⟨hfetch, ?_⟩
    intro hne
    have hc : c ≠ "" := by
      intro hceq
      rw [hceq, parseExamplesV2_empty] at hne
      simp at hne
    unfold loadResult parseExamplesResult
    rw [hfetch]
    simp [hc, hne]
  · intro h1 hlen hc hempty
    have hfetch : fetchExamplesFile net retryAttemptsDefault maxExamplesFileSize 1
        = (Except.ok c, []) := by
      rw [fetchExamplesFile, h1]
      simp [Nat.not_lt.mpr hlen]
    unfold loadExamplesHtmlV2 loadResult parseExamplesResult
    rw [hfetch]
    simp [hc, hempty]
  · intro h1
    have hfetch : fetchExamplesFile net retryAttemptsDefault maxExamplesFileSize 1
        = (Except.ok "", []) := by
      rw [fetchExamplesFile, h1]
      simp [show ("" : String).length = 0 from rfl]
    unfold loadExamplesHtmlV2 loadResult parseExamplesResult
    rw [hfetch]
    rfl

/-- Witness for the examples-load claim: with every attempt failing the
fetch errors after exactly the two linear backoff waits; with the third
attempt returning the one-snippet catalogue `## T` + fenced `graph`
block, `load()` returns exactly that snippet; a successful fetch of the
non-empty zero-snippet body `x` shows the empty-catalogue fallback card;
a successful fetch of the empty body shows the invalid-content fallback
card. -/
theorem examplesStore_load_retries_witness :
    fetchExamplesFile (fun _ => FetchOutcome.fail)
        retryAttemptsDefault maxExamplesFileSize 1
      = (Except.error "Failed to fetch examples file", [1000, 2000]) ∧
    loadResult (fun a => if a = 3
        then FetchOutcome.ok "## T\n```mermaid\ngraph```" else FetchOutcome.fail)
      = Except.ok [⟨"T", "graph"⟩] ∧
    loadExamplesHtmlV2 (fun _ => FetchOutcome.ok "x")
      = fallbackExamplesHtml "No examples found in the file" ∧
    loadExamplesHtmlV2 (fun _ => FetchOutcome.ok "")
      = fallbackExamplesHtml "Invalid examples file content" := by
  refine ⟨?_, ?_, ?_, ?_⟩
  · exact (examplesStore_load_retries (fun _ => FetchOutcome.fail) "").1 rfl rfl rfl
  · have hmatch : tryMatchExample ("## T\n```mermaid\ngraph```" : String).data
        = some ("T".data, "graph".data, ([] : List Char)) := by decide
    have hp : parseExamplesV2 "## T\n```mermaid\ngraph```" = [⟨"T", "graph"⟩] := by
      unfold parseExamplesV2
      rw [scanExamples_eq_some (by decide) hmatch, scanExamples_nil]
      decide
    have h := ((examplesStore_load_retries
        (fun a => if a = 3
          then FetchOutcome.ok "## T\n```mermaid\ngraph```" else FetchOutcome.fail)
        "## T\n```mermaid\ngraph```").2.1 rfl rfl rfl (by decide)).2
      (by rw [hp]; rfl)
    rw [h, hp]
  · have hx : parseExamplesV2 "x" = [] := by
      unfold parseExamplesV2
      rw [scanExamples_eq_none (by decide) (by decide),
        show ("x" : String).data.tail = ([] : List Char) from rfl, scanExamples_nil]
      rfl
    exact (examplesStore_load_retries (fun _ => FetchOutcome.ok "x") "x").2.2.1
      rfl (by decide) (by decide) (by rw [hx]; rfl)
  · exact (examplesStore_load_retries (fun _ => FetchOutcome.ok "") "").2.2.2 rfl

lemma escInputChar_eq (c : Char) (h1 : c ≠ '<') (h2 : c ≠ '>') (h3 : c ≠ '&')
    (h4 : c ≠ '"') (h5 : c ≠ '\'') (h6 : c ≠ '/') :
    escInputChar c = [c] := by
  simp [escInputChar, h1, h2, h3, h4, h5, h6]

lemma mem_escInputChar_ne (c d : Char) (hd : d ∈ escInputChar c) :
    d ≠ '<' ∧ d ≠ '>' ∧ d ≠ '"' ∧ d ≠ '\'' := by
  by_cases h1 : c = '<'
  · subst h1
    rw [show escInputChar '<' = ['&', 'l', 't', ';'] from rfl] at hd
    fin_cases hd <;> refine ⟨by decide, by decide, by decide, by decide⟩
  by_cases h2 : c = '>'
  · subst h2
    rw [show escInputChar '>' = ['&', 'g', 't', ';'] from rfl] at hd
    fin_cases hd <;> refine ⟨by decide, by decide, by decide, by decide⟩
  by_cases h3 : c = '&'
  · subst h3
    rw [show escInputChar '&' = ['&', 'a', 'm', 'p', ';'] from rfl] at hd
    fin_cases hd <;> refine ⟨by decide, by decide, by decide, by decide⟩
  by_cases h4 : c = '"'
  · subst h4
    rw [show escInputChar '"' = ['&', 'q', 'u', 'o', 't', ';'] from rfl] at hd
    fin_cases hd <;> refine ⟨by decide, by decide, by decide, by decide⟩
  by_cases h5 : c = '\''
  · subst h5
    rw [show escInputChar '\'' = ['&', '#', 'x', '2', '7', ';'] from rfl] at hd
    fin_cases hd <;> refine ⟨by decide, by decide, by decide, by decide⟩
  by_cases h6 : c = '/'
  · subst h6
    rw [show escInputChar '/' = ['&', '#', 'x', '2', 'F', ';'] from rfl] at hd
    fin_cases hd <;> refine ⟨by decide, by decide, by decide, by decide⟩
  · rw [escInputChar_eq c h1 h2 h3 h4 h5 h6] at hd
    simp at hd
    subst hd
    exact ⟨h1, h2, h4, h5⟩

lemma sanitizeInputL_no_markup (l : List Char) :
    ∀ d ∈ sanitizeInputL l, d ≠ '<' ∧ d ≠ '>' ∧ d ≠ '"' ∧ d ≠ '\'' := by
  induction l with
  | nil => intro d hd; simp [sanitizeInputL] at hd
  | cons c r ih =>
    intro d hd
    simp only [sanitizeInputL, List.mem_append] at hd
    rcases hd with hd | hd
    · exact mem_escInputChar_ne c d hd
    · exact ih d hd

/-- C9 counterexample: the legacy `loadExamples` (loadExamples.js, the
loader the editor imports) interpolates the matched title into the popup
markup with no escaping — the raw `<b>Evil</b>` title lands verbatim
between the `<h3>` tags, and `escapeForDisplay` would have changed it,
so the title was not passed through `escapeForDisplay`. -/
theorem examplesPopup_escaping_counterexample :
    parseExamplesLegacy "## <b>Evil</b>\n```mermaid\ngraph```"
      = [⟨"<b>Evil</b>", "graph"⟩] ∧
    containsSub "<h3><b>Evil</b></h3>".data
      (legacyExamplesHtml
        (parseExamplesLegacy "## <b>Evil</b>\n```mermaid\ngraph```")).data
      = true ∧
    sanitizeInput "<b>Evil</b>" ≠ "<b>Evil</b>" := by
  have hmatch : tryMatchExample ("## <b>Evil</b>\n```mermaid\ngraph```" : String).data
      = some ("<b>Evil</b>".data, "graph".data, ([] : List Char)) := by decide
  have hp : parseExamplesLegacy "## <b>Evil</b>\n```mermaid\ngraph```"
      = [⟨"<b>Evil</b>", "graph"⟩] := by
    unfold parseExamplesLegacy
    rw [scanExamples_eq_some (by decide) hmatch, scanExamples_nil]
    rfl
  refine ⟨hp, ?_, by decide⟩
  rw [hp]
  decide

/-- C9 amended: in the class-based examples component every snippet
title has been passed through `escapeForDisplay` at parse time and every
snippet's code is passed through `escapeForDisplay` at interpolation;
both land in the popup markup string (markup assignment via `innerHTML`,
not text-node assignment), and `escapeForDisplay` output carries no raw
`<`, `>`, `"` or `'` character; the legacy `loadExamples` interpolates
title and code into its markup unescaped. -/
theorem examplesPopup_escaping (content : String) :
    (∀ sn ∈ parseExamplesV2 content, ∃ raw : String, sn.title = sanitizeInput raw) ∧
    (∀ (sn : ExampleSnippet) (i : Nat),
      generateSnippetHtmlV2 sn i
        = snippetChunk1 i ++ sn.title ++ snippetChunk2 i ++
            sanitizeInput sn.code ++ snippetChunk3) ∧
    (∀ s : String, ∀ d ∈ (sanitizeInput s).data,
      d ≠ '<' ∧ d ≠ '>' ∧ d ≠ '"' ∧ d ≠ '\'') ∧
    (∀ sn : ExampleSnippet,
      legacySnippetHtml sn
        = legacyChunkA ++ sn.title ++ legacyChunkB ++ sn.code ++ legacyChunkC) := by
  refine ⟨?_, fun sn i => rfl, fun s => sanitizeInputL_no_markup s.data, fun sn => rfl⟩
  intro sn hsn
  unfold parseExamplesV2 at hsn
  rw [List.mem_filterMap] at hsn
  obtain ⟨p, _, hf⟩ := hsn
  by_cases hcond : (sanitizeInput ⟨trimL p.1⟩ ≠ "" ∧ (⟨trimL p.2⟩ : String) ≠ "")
  · rw [if_pos hcond] at hf
    refine ⟨⟨trimL p.1⟩, ?_⟩
    rw [← Option.some_inj.mp hf]
  · rw [if_neg hcond] at hf
    exact absurd hf (by simp)

/-- Witness for the amended examples-popup claim: the parsed snippet of
the one-entry catalogue has an escaped title, and the escaper's output
on `<b>` indeed contains no raw angle bracket. -/
theorem examplesPopup_escaping_witness :
    (∃ raw : String,
      (⟨"T", "graph"⟩ : ExampleSnippet).title = sanitizeInput raw) ∧
    ('&' ∈ (sanitizeInput "<b>").data →
      '&' ≠ '<' ∧ '&' ≠ '>' ∧ '&' ≠ '"' ∧ '&' ≠ '\'') ∧
    legacySnippetHtml ⟨"t", "c"⟩
      = legacyChunkA ++ "t" ++ legacyChunkB ++ "c" ++ legacyChunkC := by
  have hmatch : tryMatchExample ("## T\n```mermaid\ngraph```" : String).data
      = some ("T".data, "graph".data, ([] : List Char)) := by decide
  have hp : parseExamplesV2 "## T\n```mermaid\ngraph```" = [⟨"T", "graph"⟩] := by
    unfold parseExamplesV2
    rw [scanExamples_eq_some (by decide) hmatch, scanExamples_nil]
    decide
  have h := examplesPopup_escaping "## T\n```mermaid\ngraph```"
  refine ⟨h.1 ⟨"T", "graph"⟩ (by rw [hp]; exact List.mem_singleton.mpr rfl), ?_, ?_⟩
  · exact h.2.2.1 "<b>" '&'
  · exact h.2.2.2 ⟨"t", "c"⟩
